import Mathlib

/-!
Verification of `layers/core_error_location.h` (Vulkan-ValidationLayers):
the `CoreErrorLocation` error-location descriptor, its `dot` descent
operation, its `Message` renderer, and the `CoreErrorLocationVuidAdapter`.

The three enums and the `CoreErrorLocation` record are translated directly
from the header.  The `small_vector<Path, 3>` ancestry container is modelled
as a `List Path` (the small-buffer optimization is a storage choice with no
behavioral content).  `uint32_t` indices are modelled as `Nat`; the code
performs no arithmetic on indices (they are only stored, compared with
`kNoIndex`, and printed in decimal), so no overflow modelling is needed.

The enum-to-string tables (`CoreErrorLocation::String` overloads) are only
declared in the header; their definitions live outside the provided sources,
so they are modelled from the spec (see the doc comments below).
-/

namespace VVL

/-- Enum `ErrFunc` from core_error_location.h. -/
inductive ErrFunc where
  | Empty
  | vkQueueSubmit
  | vkQueueSubmit2KHR
  | vkCmdSetEvent
  | vkCmdSetEvent2KHR
  | vkCmdResetEvent
  | vkCmdResetEvent2KHR
  | vkCmdPipelineBarrier
  | vkCmdPipelineBarrier2KHR
  | vkCmdWaitEvents
  | vkCmdWaitEvents2KHR
  | vkCmdWriteTimestamp2
  | vkCmdWriteTimestamp2KHR
  | vkCreateRenderPass
  | vkCreateRenderPass2
  | vkQueueBindSparse
  | vkSignalSemaphore
  deriving DecidableEq, Repr

/-- Enum `RefPage` from core_error_location.h. -/
inductive RefPage where
  | Empty
  | VkMemoryBarrier
  | VkMemoryBarrier2KHR
  | VkBufferMemoryBarrier
  | VkImageMemoryBarrier
  | VkBufferMemoryBarrier2KHR
  | VkImageMemoryBarrier2KHR
  | VkSubmitInfo
  | VkSubmitInfo2KHR
  | VkCommandBufferSubmitInfoKHR
  | vkCmdSetEvent
  | vkCmdSetEvent2KHR
  | vkCmdResetEvent
  | vkCmdResetEvent2KHR
  | vkCmdPipelineBarrier
  | vkCmdPipelineBarrier2KHR
  | vkCmdWaitEvents
  | vkCmdWaitEvents2KHR
  | vkCmdWriteTimestamp2
  | vkCmdWriteTimestamp2KHR
  | VkSubpassDependency
  | VkSubpassDependency2
  | VkBindSparseInfo
  | VkSemaphoreSignalInfo
  deriving DecidableEq, Repr

/-- Enum `Field` from core_error_location.h. -/
inductive Field where
  | Empty
  | oldLayout
  | newLayout
  | image
  | buffer
  | pMemoryBarriers
  | pBufferMemoryBarriers
  | pImageMemoryBarriers
  | offset
  | size
  | subresourceRange
  | srcAccessMask
  | dstAccessMask
  | srcStageMask
  | dstStageMask
  | pNext
  | pWaitDstStageMask
  | pWaitSemaphores
  | pSignalSemaphores
  | pWaitSemaphoreInfos
  | pWaitSemaphoreValues
  | pSignalSemaphoreInfos
  | pSignalSemaphoreValues
  | stage
  | stageMask
  | value
  | pCommandBuffers
  | pSubmits
  | pCommandBufferInfos
  | semaphore
  | commandBuffer
  | dependencyFlags
  | pDependencyInfo
  | pDependencyInfos
  | srcQueueFamilyIndex
  | dstQueueFamilyIndex
  | queryPool
  | pDependencies
  deriving DecidableEq, Repr

/-- `kNoIndex = std::numeric_limits<uint32_t>::max()`: the "no index" sentinel. -/
def kNoIndex : Nat := 2 ^ 32 - 1

/-- `CoreErrorLocation::Path`: one (field, index) step of the ancestry chain. -/
structure Path where
  field : Field
  index : Nat
  deriving DecidableEq, Repr

/-- `CoreErrorLocation`: function / refpage identity, current field and index,
and the ancestry chain `field_path` (a `small_vector<Path, 3>`, modelled as a
list, oldest step first). -/
structure CoreErrorLocation where
  func_name : ErrFunc
  refpage : RefPage
  field_name : Field
  index : Nat
  field_path : List Path
  deriving DecidableEq, Repr

/-- The constructor
`CoreErrorLocation(ErrFunc func, RefPage ref, Field f = Field::Empty, uint32_t i = kNoIndex)`:
sets the four scalar members; `field_path` is default-constructed (empty). -/
def CoreErrorLocation.init (func : ErrFunc) (ref : RefPage) (f : Field) (i : Nat) :
    CoreErrorLocation :=
  { func_name := func, refpage := ref, field_name := f, index := i, field_path := [] }

/-- Modelled from the spec: the enum-to-text lookup service
`CoreErrorLocation::String(ErrFunc)` is declared in the header but defined
outside the provided sources.  Per the spec it is a total, process-wide table
mapping each enumerator to its name text; the `Empty` sentinel maps to empty
text (the spec requires a field-less Location to render with nothing after
the colon-space). -/
def ErrFunc.text : ErrFunc → String
  | .Empty => ""
  | .vkQueueSubmit => "vkQueueSubmit"
  | .vkQueueSubmit2KHR => "vkQueueSubmit2KHR"
  | .vkCmdSetEvent => "vkCmdSetEvent"
  | .vkCmdSetEvent2KHR => "vkCmdSetEvent2KHR"
  | .vkCmdResetEvent => "vkCmdResetEvent"
  | .vkCmdResetEvent2KHR => "vkCmdResetEvent2KHR"
  | .vkCmdPipelineBarrier => "vkCmdPipelineBarrier"
  | .vkCmdPipelineBarrier2KHR => "vkCmdPipelineBarrier2KHR"
  | .vkCmdWaitEvents => "vkCmdWaitEvents"
  | .vkCmdWaitEvents2KHR => "vkCmdWaitEvents2KHR"
  | .vkCmdWriteTimestamp2 => "vkCmdWriteTimestamp2"
  | .vkCmdWriteTimestamp2KHR => "vkCmdWriteTimestamp2KHR"
  | .vkCreateRenderPass => "vkCreateRenderPass"
  | .vkCreateRenderPass2 => "vkCreateRenderPass2"
  | .vkQueueBindSparse => "vkQueueBindSparse"
  | .vkSignalSemaphore => "vkSignalSemaphore"

/-- Modelled from the spec: `CoreErrorLocation::String(RefPage)`, the same
external lookup service for reference-page identities (total; `Empty` maps to
empty text). -/
def RefPage.text : RefPage → String
  | .Empty => ""
  | .VkMemoryBarrier => "VkMemoryBarrier"
  | .VkMemoryBarrier2KHR => "VkMemoryBarrier2KHR"
  | .VkBufferMemoryBarrier => "VkBufferMemoryBarrier"
  | .VkImageMemoryBarrier => "VkImageMemoryBarrier"
  | .VkBufferMemoryBarrier2KHR => "VkBufferMemoryBarrier2KHR"
  | .VkImageMemoryBarrier2KHR => "VkImageMemoryBarrier2KHR"
  | .VkSubmitInfo => "VkSubmitInfo"
  | .VkSubmitInfo2KHR => "VkSubmitInfo2KHR"
  | .VkCommandBufferSubmitInfoKHR => "VkCommandBufferSubmitInfoKHR"
  | .vkCmdSetEvent => "vkCmdSetEvent"
  | .vkCmdSetEvent2KHR => "vkCmdSetEvent2KHR"
  | .vkCmdResetEvent => "vkCmdResetEvent"
  | .vkCmdResetEvent2KHR => "vkCmdResetEvent2KHR"
  | .vkCmdPipelineBarrier => "vkCmdPipelineBarrier"
  | .vkCmdPipelineBarrier2KHR => "vkCmdPipelineBarrier2KHR"
  | .vkCmdWaitEvents => "vkCmdWaitEvents"
  | .vkCmdWaitEvents2KHR => "vkCmdWaitEvents2KHR"
  | .vkCmdWriteTimestamp2 => "vkCmdWriteTimestamp2"
  | .vkCmdWriteTimestamp2KHR => "vkCmdWriteTimestamp2KHR"
  | .VkSubpassDependency => "VkSubpassDependency"
  | .VkSubpassDependency2 => "VkSubpassDependency2"
  | .VkBindSparseInfo => "VkBindSparseInfo"
  | .VkSemaphoreSignalInfo => "VkSemaphoreSignalInfo"

/-- Modelled from the spec: `CoreErrorLocation::String(Field)`, the same
external lookup service for field identities (total; `Empty` maps to empty
text — required by the spec's edge case that an unset current field renders
nothing). -/
def Field.text : Field → String
  | .Empty => ""
  | .oldLayout => "oldLayout"
  | .newLayout => "newLayout"
  | .image => "image"
  | .buffer => "buffer"
  | .pMemoryBarriers => "pMemoryBarriers"
  | .pBufferMemoryBarriers => "pBufferMemoryBarriers"
  | .pImageMemoryBarriers => "pImageMemoryBarriers"
  | .offset => "offset"
  | .size => "size"
  | .subresourceRange => "subresourceRange"
  | .srcAccessMask => "srcAccessMask"
  | .dstAccessMask => "dstAccessMask"
  | .srcStageMask => "srcStageMask"
  | .dstStageMask => "dstStageMask"
  | .pNext => "pNext"
  | .pWaitDstStageMask => "pWaitDstStageMask"
  | .pWaitSemaphores => "pWaitSemaphores"
  | .pSignalSemaphores => "pSignalSemaphores"
  | .pWaitSemaphoreInfos => "pWaitSemaphoreInfos"
  | .pWaitSemaphoreValues => "pWaitSemaphoreValues"
  | .pSignalSemaphoreInfos => "pSignalSemaphoreInfos"
  | .pSignalSemaphoreValues => "pSignalSemaphoreValues"
  | .stage => "stage"
  | .stageMask => "stageMask"
  | .value => "value"
  | .pCommandBuffers => "pCommandBuffers"
  | .pSubmits => "pSubmits"
  | .pCommandBufferInfos => "pCommandBufferInfos"
  | .semaphore => "semaphore"
  | .commandBuffer => "commandBuffer"
  | .dependencyFlags => "dependencyFlags"
  | .pDependencyInfo => "pDependencyInfo"
  | .pDependencyInfos => "pDependencyInfos"
  | .srcQueueFamilyIndex => "srcQueueFamilyIndex"
  | .dstQueueFamilyIndex => "dstQueueFamilyIndex"
  | .queryPool => "queryPool"
  | .pDependencies => "pDependencies"

/-- `CoreErrorLocation::StringFuncName()`. -/
def CoreErrorLocation.StringFuncName (l : CoreErrorLocation) : String :=
  ErrFunc.text l.func_name

/-- `CoreErrorLocation::StringRefPage()`. -/
def CoreErrorLocation.StringRefPage (l : CoreErrorLocation) : String :=
  RefPage.text l.refpage

/-- `CoreErrorLocation::StringField()`. -/
def CoreErrorLocation.StringField (l : CoreErrorLocation) : String :=
  Field.text l.field_name

/-- The stream-append pattern `Message` uses for one (field, index) entry:
`out << String(field); if (index != kNoIndex) out << "[" << index << "]";`.
The loop body applies it to each ancestry step (and then appends `"."`); the
tail applies it to the current field and index. -/
def appendEntry (out : String) (f : Field) (i : Nat) : String :=
  let out := out ++ Field.text f
  if i ≠ kNoIndex then out ++ "[" ++ Nat.repr i ++ "]" else out

/-- `CoreErrorLocation::Message()`: `"<func>(): "`, then each ancestry step
(field text, optional bracketed decimal index, a trailing `"."`), then the
current field text with its optional bracketed decimal index. -/
def CoreErrorLocation.Message (l : CoreErrorLocation) : String :=
  let out := l.StringFuncName ++ "(): "
  let out := l.field_path.foldl (fun out f => appendEntry out f.field f.index ++ ".") out
  appendEntry out l.field_name l.index

/-- `CoreErrorLocation::dot(Field sub_field, uint32_t sub_index = kNoIndex)`:
builds `result` from `func_name`/`refpage` (constructor defaults for the
rest), copies this ancestry into it (the `reserve` call only preallocates
capacity and has no behavioral content), pushes `(field_name, index)` when
`field_name` is not `Empty`, then sets the new current field and index. -/
def CoreErrorLocation.dot (l : CoreErrorLocation) (sub_field : Field) (sub_index : Nat) :
    CoreErrorLocation :=
  let result := CoreErrorLocation.init l.func_name l.refpage Field.Empty kNoIndex
  let result := { result with field_path := l.field_path }
  let result :=
    if l.field_name ≠ Field.Empty then
      { result with field_path := result.field_path ++ [Path.mk l.field_name l.index] }
    else result
  { result with field_name := sub_field, index := sub_index }

/-- State-passing rendering of the `const` method `dot`: the call takes the
receiver and yields the receiver as it stands after the call together with the
returned Location.  The body of `dot` only reads the receiver (every write
targets the local `result`), so the receiver comes back unchanged. -/
def CoreErrorLocation.dotState (l : CoreErrorLocation) (sub_field : Field) (sub_index : Nat) :
    CoreErrorLocation × CoreErrorLocation :=
  (l, l.dot sub_field sub_index)

/-- A chain of descents: fold `dot` over a list of (sub_field, sub_index)
arguments, left to right. -/
def descendChain (l : CoreErrorLocation) : List (Field × Nat) → CoreErrorLocation
  | [] => l
  | (f, i) :: rest => descendChain (l.dot f i) rest

/-- `CoreErrorLocationVuidAdapter<VuidFunctor>`: pairs a Location with a
caller-supplied resolver (the functor is modelled by the function it
computes). -/
structure CoreErrorLocationVuidAdapter where
  loc : CoreErrorLocation
  vuid_functor : CoreErrorLocation → String

/-- `CoreErrorLocationVuidAdapter::FuncName()`: returns the text of the held
Location's function-identity lookup. -/
def CoreErrorLocationVuidAdapter.FuncName (a : CoreErrorLocationVuidAdapter) : String :=
  a.loc.StringFuncName

/-- `CoreErrorLocationVuidAdapter::Vuid()`: invokes the stored functor on the
held Location and returns its result unchanged. -/
def CoreErrorLocationVuidAdapter.Vuid (a : CoreErrorLocationVuidAdapter) : String :=
  a.vuid_functor a.loc

/-- Spec-side rendering of one path entry: the field text followed by the
bracketed decimal index exactly when the index is not the sentinel. -/
def entryText (f : Field) (i : Nat) : String :=
  Field.text f ++ (if i ≠ kNoIndex then "[" ++ Nat.repr i ++ "]" else "")

/-- Spec-side separator discipline: exactly one `"."` between each pair of
consecutive entries and no trailing separator. -/
def dotJoin : List String → String
  | [] => ""
  | [s] => s
  | s :: rest => s ++ "." ++ dotJoin rest

theorem dot_eq (l : CoreErrorLocation) (f : Field) (i : Nat) :
    l.dot f i =
      { func_name := l.func_name, refpage := l.refpage, field_name := f, index := i,
        field_path :=
          if l.field_name ≠ Field.Empty then l.field_path ++ [Path.mk l.field_name l.index]
          else l.field_path } := by
  by_cases h : l.field_name = Field.Empty <;>
    simp [CoreErrorLocation.dot, CoreErrorLocation.init, h]

theorem appendEntry_eq (out : String) (f : Field) (i : Nat) :
    appendEntry out f i = out ++ entryText f i := by
  by_cases h : i = kNoIndex <;>
    simp [appendEntry, entryText, h, String.append_assoc]

theorem dotJoin_cons (s : String) (t : List String) (h : t ≠ []) :
    dotJoin (s :: t) = s ++ "." ++ dotJoin t := by
  cases t with
  | nil => exact absurd rfl h
  | cons y ys => rfl

theorem foldl_entry_dotJoin (xs : List Path) (a b : String) :
    xs.foldl (fun out p => appendEntry out p.field p.index ++ ".") a ++ b =
      a ++ dotJoin (xs.map (fun p => entryText p.field p.index) ++ [b]) := by
  induction xs generalizing a with
  | nil => simp [dotJoin]
  | cons x xs ih =>
    simp only [List.foldl_cons, List.map_cons, List.cons_append]
    rw [ih, dotJoin_cons _ _ (by simp), appendEntry_eq]
    simp [String.append_assoc]

theorem chain_identity (steps : List (Field × Nat)) (l : CoreErrorLocation) :
    (descendChain l steps).func_name = l.func_name ∧
      (descendChain l steps).refpage = l.refpage := by
  induction steps generalizing l with
  | nil => exact ⟨rfl, rfl⟩
  | cons s rest ih =>
    obtain ⟨f, i⟩ := s
    have h := ih (l.dot f i)
    simpa [descendChain, dot_eq] using h

theorem chain_no_empty (steps : List (Field × Nat)) (l : CoreErrorLocation)
    (hl : ∀ p ∈ l.field_path, p.field ≠ Field.Empty) :
    ∀ p ∈ (descendChain l steps).field_path, p.field ≠ Field.Empty := by
  induction steps generalizing l with
  | nil => exact hl
  | cons s rest ih =>
    obtain ⟨f, i⟩ := s
    refine ih (l.dot f i) ?_
    intro p hp
    rw [dot_eq] at hp
    by_cases h : l.field_name = Field.Empty
    · simp [h] at hp
      exact hl p hp
    · simp [h] at hp
      rcases hp with hp | hp
      · exact hl p hp
      · rw [hp]; exact h

/-- C1: `dot` returns a new Location with the same `func_name` and `refpage`,
an ancestry that is a copy of the receiver's with `(field_name, index)`
appended exactly when the receiver's `field_name` is not `Empty`, and the
given sub-field and sub-index as the new current field and index. -/
theorem dot_builds_child (l : CoreErrorLocation) (f : Field) (i : Nat) :
    l.dot f i =
      { func_name := l.func_name, refpage := l.refpage, field_name := f, index := i,
        field_path :=
          if l.field_name ≠ Field.Empty then l.field_path ++ [Path.mk l.field_name l.index]
          else l.field_path } :=
  dot_eq l f i

/-- C3: descent does not mutate the receiver.  In the state-passing rendering
of the `const` method, the receiver after the first call and after the second
call is the original `l`, each returned Location equals a descent performed on
the original state, and both results carry ancestries computed from `l`'s
original ancestry (value copies, independent of each other). -/
theorem descend_nonmutating (l : CoreErrorLocation) (A : Field) (iA : Nat)
    (B : Field) (iB : Nat) :
    (l.dotState A iA).1 = l ∧
    ((l.dotState A iA).1.dotState B iB).1 = l ∧
    (l.dotState A iA).2 = l.dot A iA ∧
    ((l.dotState A iA).1.dotState B iB).2 = l.dot B iB ∧
    (l.dot A iA).field_path =
      (if l.field_name ≠ Field.Empty then l.field_path ++ [Path.mk l.field_name l.index]
       else l.field_path) ∧
    (l.dot B iB).field_path =
      (if l.field_name ≠ Field.Empty then l.field_path ++ [Path.mk l.field_name l.index]
       else l.field_path) := by
  refine ⟨rfl, rfl, rfl, rfl, ?_, ?_⟩ <;> rw [dot_eq]

/-- C4: `func_name` and `refpage` of every Location reached from a constructed
root by any finite chain of descents equal the root's construction arguments
(branching is covered because every branch of a descent tree is itself such a
chain). -/
theorem chain_preserves_identity (func : ErrFunc) (ref : RefPage) (f : Field) (i : Nat)
    (steps : List (Field × Nat)) :
    (descendChain (CoreErrorLocation.init func ref f i) steps).func_name = func ∧
      (descendChain (CoreErrorLocation.init func ref f i) steps).refpage = ref :=
  chain_identity steps (CoreErrorLocation.init func ref f i)

/-- C5: for every Location reachable from a constructor call by a finite
sequence of descents, no ancestry step carries `Field.Empty`: the constructor
starts with an empty ancestry and `dot` pushes the current field only when it
is not `Empty`. -/
theorem ancestry_never_empty (func : ErrFunc) (ref : RefPage) (f : Field) (i : Nat)
    (steps : List (Field × Nat)) (p : Path)
    (hp : p ∈ (descendChain (CoreErrorLocation.init func ref f i) steps).field_path) :
    p.field ≠ Field.Empty :=
  chain_no_empty steps (CoreErrorLocation.init func ref f i) (by intro q hq; simp [CoreErrorLocation.init] at hq) p hp

theorem ancestry_never_empty_witness :
    Path.mk Field.pSubmits 0 ∈
        (descendChain
          (CoreErrorLocation.init ErrFunc.vkQueueSubmit RefPage.VkSubmitInfo Field.Empty kNoIndex)
          [(Field.pSubmits, 0), (Field.pCommandBuffers, 1)]).field_path ∧
      (Path.mk Field.pSubmits 0).field ≠ Field.Empty :=
  ⟨by decide,
   ancestry_never_empty ErrFunc.vkQueueSubmit RefPage.VkSubmitInfo Field.Empty kNoIndex
     [(Field.pSubmits, 0), (Field.pCommandBuffers, 1)] (Path.mk Field.pSubmits 0) (by decide)⟩

/-- C9: the adapter's function-name view returns exactly the held Location's
function-identity lookup text, and its diagnostic-code view returns exactly
the resolver's result on the held Location, untransformed. -/
theorem adapter_views (loc : CoreErrorLocation) (vf : CoreErrorLocation → String) :
    (CoreErrorLocationVuidAdapter.mk loc vf).FuncName = ErrFunc.text loc.func_name ∧
      (CoreErrorLocationVuidAdapter.mk loc vf).Vuid = vf loc :=
  ⟨rfl, rfl⟩

/-- C2: `Message` is the function name, then `"(): "`, then the entries of
the full path (each ancestry step in order, then the current field), each
rendered as its field text followed by the bracketed decimal index exactly
when that index is not the sentinel, with exactly one `"."` between
consecutive entries and no trailing separator. -/
theorem message_dotted_path (l : CoreErrorLocation) :
    l.Message =
      ErrFunc.text l.func_name ++ "(): " ++
        dotJoin ((l.field_path.map fun p => entryText p.field p.index) ++
          [entryText l.field_name l.index]) := by
  simp only [CoreErrorLocation.Message]
  rw [appendEntry_eq, foldl_entry_dotJoin]
  rfl

/-- C6: in the per-entry rendering used by `Message`, the sentinel index
produces no bracketed text, any other index value appends `"[" ++ decimal ++
"]"` (`Nat.repr` is the decimal rendering, matching `operator<<` on
`uint32_t`), and the sentinel is the maximum unsigned 32-bit value. -/
theorem index_rendering (out : String) (f : Field) (i : Nat) :
    kNoIndex = 4294967295 ∧
      (i = kNoIndex → appendEntry out f i = out ++ Field.text f) ∧
      (i ≠ kNoIndex → appendEntry out f i = out ++ Field.text f ++ "[" ++ Nat.repr i ++ "]") := by
  refine ⟨by norm_num [kNoIndex], fun h => ?_, fun h => ?_⟩
  · simp [appendEntry, h]
  · simp [appendEntry, h, String.append_assoc]

theorem index_rendering_witness :
    (5 : Nat) ≠ kNoIndex ∧
      appendEntry "" Field.offset 5 = "" ++ Field.text Field.offset ++ "[" ++ Nat.repr 5 ++ "]" :=
  ⟨by decide, (index_rendering "" Field.offset 5).2.2 (by decide)⟩

/-- C7: a freshly constructed Location (current field `Empty`, index the
sentinel, empty ancestry) renders as the function name followed by `"(): "`
with nothing after, for every function and reference-page identity; the
renderer is a total function, so this never fails. -/
theorem fresh_location_message (func : ErrFunc) (ref : RefPage) :
    (CoreErrorLocation.init func ref Field.Empty kNoIndex).Message =
      ErrFunc.text func ++ "(): " := by
  simp [CoreErrorLocation.Message, CoreErrorLocation.init, CoreErrorLocation.StringFuncName,
    appendEntry, Field.text]

/-- C8: the concrete chain of the header's usage example renders exactly
`"vkCmdPipelineBarrier(): pImageMemoryBarriers[42].srcAccessMask"`. -/
theorem concrete_chain_message :
    (((CoreErrorLocation.init ErrFunc.vkCmdPipelineBarrier RefPage.VkImageMemoryBarrier
            Field.Empty kNoIndex).dot Field.pImageMemoryBarriers 42).dot
          Field.srcAccessMask kNoIndex).Message =
      "vkCmdPipelineBarrier(): pImageMemoryBarriers[42].srcAccessMask" := by
  rfl

/-- C10: when the current field is `Empty` but the current index is not the
sentinel, descending discards that index — the child's ancestry is the
receiver's ancestry unchanged, and every descendant's rendering is
independent of that index value — while rendering the Location itself (shown
for the root case of an empty ancestry, where the situation arises) still
emits the bracketed decimal index directly after the `"(): "` prefix and the
empty current-field text. -/
theorem empty_field_index_discarded (l : CoreErrorLocation)
    (h : l.field_name = Field.Empty) (hi : l.index ≠ kNoIndex) :
    (∀ f i, (l.dot f i).field_path = l.field_path) ∧
      (∀ j₁ j₂ : Nat, ∀ f : Field, ∀ i : Nat, ∀ steps : List (Field × Nat),
        (descendChain { l with index := j₁ } ((f, i) :: steps)).Message =
          (descendChain { l with index := j₂ } ((f, i) :: steps)).Message) ∧
      (l.field_path = [] →
        l.Message = ErrFunc.text l.func_name ++ "(): " ++ "[" ++ Nat.repr l.index ++ "]") := by
  refine ⟨fun f i => ?_, fun j₁ j₂ f i steps => ?_, fun hp => ?_⟩
  · rw [dot_eq]; simp [h]
  · have hd : ∀ j : Nat, ({ l with index := j } : CoreErrorLocation).dot f i =
        { func_name := l.func_name, refpage := l.refpage, field_name := f, index := i,
          field_path := l.field_path } := by
      intro j; rw [dot_eq]; simp [h]
    simp [descendChain, hd]
  · simp [CoreErrorLocation.Message, CoreErrorLocation.StringFuncName, appendEntry,
      Field.text, h, hp, hi, String.append_assoc]

theorem empty_field_index_discarded_witness :
    (7 : Nat) ≠ kNoIndex ∧
      (CoreErrorLocation.init ErrFunc.vkQueueSubmit RefPage.VkSubmitInfo Field.Empty 7).Message =
        ErrFunc.text ErrFunc.vkQueueSubmit ++ "(): " ++ "[" ++ Nat.repr 7 ++ "]" :=
  ⟨by decide,
   (empty_field_index_discarded
        (CoreErrorLocation.init ErrFunc.vkQueueSubmit RefPage.VkSubmitInfo Field.Empty 7)
        rfl (by decide)).2.2 rfl⟩

end VVL
